import Mathlib

/-!
# Verification of the swarm-fm uptime worker live-status actor

Shallow embedding of the worker's live-status logic (the `LiveStatusDO`
durable object and the `scheduled` cron handler) together with the
signature-compute utility, and proofs of the specified properties.

External collaborators (the platform's HMAC-SHA256 primitive, the XML feed
parser, the YouTube metadata/search services and the hub) are modelled as
explicit inputs to the embedded handlers; everything the worker itself
computes is translated directly from the source.
-/

set_option maxHeartbeats 1000000

/-! ## JS value model

JavaScript numbers are modelled as exact rationals plus NaN (the handlers
only ever add, multiply and compare values well inside the float-exact
range, so rounding plays no role in any claim). -/

/-- A JS number: either an exact value or NaN. -/
inductive JsNum where
  | nan : JsNum
  | num (q : ℚ) : JsNum
deriving DecidableEq, Repr

/-- JS `+` on numbers: NaN propagates. -/
def jsAdd : JsNum → JsNum → JsNum
  | JsNum.num a, JsNum.num b => JsNum.num (a + b)
  | _, _ => JsNum.nan

/-- JS `*` on numbers: NaN propagates. -/
def jsMul : JsNum → JsNum → JsNum
  | JsNum.num a, JsNum.num b => JsNum.num (a * b)
  | _, _ => JsNum.nan

/-- JS `-` on numbers: NaN propagates. -/
def jsSub : JsNum → JsNum → JsNum
  | JsNum.num a, JsNum.num b => JsNum.num (a - b)
  | _, _ => JsNum.nan

/-- JS `<` on numbers: any comparison with NaN is false. -/
def jsLt : JsNum → JsNum → Bool
  | JsNum.num a, JsNum.num b => a < b
  | _, _ => false

/-- JS truthiness of a number: `0` and `NaN` are falsy. -/
def jsNumTruthy : JsNum → Bool
  | JsNum.nan => false
  | JsNum.num q => q ≠ 0

/-- JS truthiness of a `string | null` value: `null` and `""` are falsy. -/
def jsTruthyStr : Option String → Bool
  | none => false
  | some s => s ≠ ""

/-- JS `??` applied to a number-valued left operand: a number (NaN included)
is never null/undefined, so the right operand is dead code. -/
def jsNullishNum (a : JsNum) (_default : JsNum) : JsNum := a

/-- JS `||` applied to a number-valued left operand: yields the right operand
exactly when the left is falsy (`0` or `NaN`). -/
def jsOrNum (a : JsNum) (b : JsNum) : JsNum :=
  if jsNumTruthy a then a else b

/-- JS `||` applied to a `string | undefined` left operand: yields the right
operand exactly when the left is absent or the empty string. -/
def jsOrStr (a : Option String) (b : String) : String :=
  match a with
  | none => b
  | some s => if s = "" then b else s

/-- Value of a decimal digit string, `none` if empty or any char is not a
digit. Helper for the `Number(...)` model. -/
def decDigits? (cs : List Char) : Option Nat :=
  match cs with
  | [] => none
  | _ =>
    if cs.all Char.isDigit then
      some (cs.foldl (fun a c => a * 10 + (c.toNat - 48)) 0)
    else none

/-- JS whitespace, as stripped by the `Number(...)` conversion. -/
def isJsSpace (c : Char) : Bool :=
  c = ' ' || c = '\t' || c = '\n' || c = '\r' || c = '\x0b' || c = '\x0c'

/-- Strip leading and trailing whitespace from a character list. -/
def trimChars (cs : List Char) : List Char :=
  ((cs.dropWhile isJsSpace).reverse.dropWhile isJsSpace).reverse

/-- Model of the JS `Number(...)` conversion applied to a `string | null`
argument, faithful on the inputs the worker can meet: `Number(null) = 0`,
the empty / all-whitespace string converts to `0`, an optionally signed
decimal integer string converts to its value, and anything else (the
"invalid" case) is NaN. (Fractional/hex/exponent literals are outside the
model; no claim depends on them.) -/
def jsToNumber : Option String → JsNum
  | none => JsNum.num 0
  | some s =>
    let t := trimChars s.data
    if t = [] then JsNum.num 0
    else
      match t with
      | '-' :: rest =>
        match decDigits? rest with
        | some n => JsNum.num (-(n : ℚ))
        | none => JsNum.nan
      | '+' :: rest =>
        match decDigits? rest with
        | some n => JsNum.num (n : ℚ)
        | none => JsNum.nan
      | cs =>
        match decDigits? cs with
        | some n => JsNum.num (n : ℚ)
        | none => JsNum.nan

/-! ## UTF-8 encoding (the `TextEncoder().encode` used by `equals`)

The worker's constant-time comparison operates on the UTF-8 bytes of its
two string arguments.  We encode characters by the standard UTF-8 branches
and prove the encoding injective via an explicit decoder. -/

/-- UTF-8 encoding of a single code point (as byte values). -/
def utf8EncodeChar (c : Nat) : List Nat :=
  if c < 0x80 then [c]
  else if c < 0x800 then [0xC0 + c / 64, 0x80 + c % 64]
  else if c < 0x10000 then
    [0xE0 + c / 4096, 0x80 + (c / 64) % 64, 0x80 + c % 64]
  else
    [0xF0 + c / 0x40000, 0x80 + (c / 4096) % 64, 0x80 + (c / 64) % 64, 0x80 + c % 64]

/-- UTF-8 encoding of a code-point sequence. -/
def utf8EncodeCodes : List Nat → List Nat
  | [] => []
  | c :: cs => utf8EncodeChar c ++ utf8EncodeCodes cs

/-- The UTF-8 byte encoding of a string, i.e. `new TextEncoder().encode(s)`. -/
def utf8Encode (s : String) : List Nat :=
  utf8EncodeCodes (s.data.map Char.toNat)

/-- Decode one UTF-8 sequence from the front of a byte list; used only to
establish injectivity of `utf8Encode`. -/
def contVal (o : Option Nat) : Option Nat :=
  match o with
  | some b => if 0x80 ≤ b ∧ b < 0xC0 then some (b - 0x80) else none
  | none => none

/-- Decode the first UTF-8 encoded code point of a byte list, returning it
together with the remaining bytes. -/
def utf8DecodeChar1 (l : List Nat) : Option (Nat × List Nat) :=
  match l.head? with
  | none => none
  | some b =>
    if b < 0x80 then some (b, l.tail)
    else if b < 0xC0 then none
    else if b < 0xE0 then
      match contVal l.tail.head? with
      | some v2 => some ((b - 0xC0) * 64 + v2, l.tail.tail)
      | none => none
    else if b < 0xF0 then
      match contVal l.tail.head?, contVal l.tail.tail.head? with
      | some v2, some v3 => some ((b - 0xE0) * 4096 + v2 * 64 + v3, l.tail.tail.tail)
      | _, _ => none
    else
      match contVal l.tail.head?, contVal l.tail.tail.head?, contVal l.tail.tail.tail.head? with
      | some v2, some v3, some v4 =>
        some ((b - 0xF0) * 0x40000 + v2 * 4096 + v3 * 64 + v4, l.tail.tail.tail.tail)
      | _, _, _ => none

theorem contVal_cont (x : Nat) (hx : x < 64) : contVal (some (0x80 + x)) = some x := by
  unfold contVal
  dsimp only
  rw [if_pos (by omega)]
  simp only [Option.some.injEq]
  omega

theorem utf8DecodeChar1_encode (c : Nat) (hc : c < 0x110000) (rest : List Nat) :
    utf8DecodeChar1 (utf8EncodeChar c ++ rest) = some (c, rest) := by
  by_cases h1 : c < 0x80
  · have henc : utf8EncodeChar c = [c] := by unfold utf8EncodeChar; rw [if_pos h1]
    rw [henc]
    unfold utf8DecodeChar1
    simp only [List.cons_append, List.nil_append, List.head?_cons, List.tail_cons]
    rw [if_pos h1]
  · by_cases h2 : c < 0x800
    · have henc : utf8EncodeChar c = [0xC0 + c / 64, 0x80 + c % 64] := by
        unfold utf8EncodeChar; rw [if_neg h1, if_pos h2]
      rw [henc]
      unfold utf8DecodeChar1
      simp only [List.cons_append, List.nil_append, List.head?_cons, List.tail_cons]
      rw [if_neg (by omega), if_neg (by omega), if_pos (by omega)]
      rw [contVal_cont (c % 64) (by omega)]
      simp only [Option.some.injEq, Prod.mk.injEq]
      constructor
      · omega
      · trivial
    · by_cases h3 : c < 0x10000
      · have henc : utf8EncodeChar c =
            [0xE0 + c / 4096, 0x80 + (c / 64) % 64, 0x80 + c % 64] := by
          unfold utf8EncodeChar; rw [if_neg h1, if_neg h2, if_pos h3]
        rw [henc]
        unfold utf8DecodeChar1
        simp only [List.cons_append, List.nil_append, List.head?_cons, List.tail_cons]
        rw [if_neg (by omega), if_neg (by omega), if_neg (by omega), if_pos (by omega)]
        rw [contVal_cont ((c / 64) % 64) (by omega), contVal_cont (c % 64) (by omega)]
        simp only [Option.some.injEq, Prod.mk.injEq]
        constructor
        · omega
        · trivial
      · have henc : utf8EncodeChar c =
            [0xF0 + c / 0x40000, 0x80 + (c / 4096) % 64, 0x80 + (c / 64) % 64, 0x80 + c % 64] := by
          unfold utf8EncodeChar; rw [if_neg h1, if_neg h2, if_neg h3]
        rw [henc]
        unfold utf8DecodeChar1
        simp only [List.cons_append, List.nil_append, List.head?_cons, List.tail_cons]
        rw [if_neg (by omega), if_neg (by omega), if_neg (by omega), if_neg (by omega)]
        rw [contVal_cont ((c / 4096) % 64) (by omega), contVal_cont ((c / 64) % 64) (by omega),
          contVal_cont (c % 64) (by omega)]
        simp only [Option.some.injEq, Prod.mk.injEq]
        constructor
        · omega
        · trivial

theorem utf8EncodeChar_ne_nil (c : Nat) : utf8EncodeChar c ≠ [] := by
  unfold utf8EncodeChar
  split
  · simp
  · split
    · simp
    · split
      · simp
      · simp

theorem utf8EncodeCodes_inj : ∀ cs1 cs2 : List Nat, (∀ c ∈ cs1, c < 0x110000) →
    (∀ c ∈ cs2, c < 0x110000) → utf8EncodeCodes cs1 = utf8EncodeCodes cs2 → cs1 = cs2 := by
  intro cs1
  induction cs1 with
  | nil =>
    intro cs2 _ h2 he
    cases cs2 with
    | nil => rfl
    | cons c cs =>
      exfalso
      rw [utf8EncodeCodes, utf8EncodeCodes] at he
      exact utf8EncodeChar_ne_nil c (List.append_eq_nil.mp he.symm).1
  | cons c1 cs1 ih =>
    intro cs2 h1 h2 he
    cases cs2 with
    | nil =>
      exfalso
      rw [utf8EncodeCodes, utf8EncodeCodes] at he
      exact utf8EncodeChar_ne_nil c1 (List.append_eq_nil.mp he).1
    | cons c2 cs2 =>
      rw [utf8EncodeCodes, utf8EncodeCodes] at he
      have d1 := utf8DecodeChar1_encode c1 (h1 c1 (by simp)) (utf8EncodeCodes cs1)
      have d2 := utf8DecodeChar1_encode c2 (h2 c2 (by simp)) (utf8EncodeCodes cs2)
      rw [he, d2] at d1
      have hp : c2 = c1 ∧ utf8EncodeCodes cs2 = utf8EncodeCodes cs1 := by
        simpa using d1
      have hcs : cs1 = cs2 :=
        ih cs2 (fun c hx => h1 c (by simp [hx])) (fun c hx => h2 c (by simp [hx])) hp.2.symm
      rw [hp.1, hcs]

theorem char_toNat_lt (c : Char) : c.toNat < 0x110000 := by
  have h := c.valid
  show c.val.toNat < 0x110000
  rcases h with h | h
  · omega
  · omega

theorem utf8Encode_inj {a b : String} (h : utf8Encode a = utf8Encode b) : a = b := by
  have hvalid : ∀ s : String, ∀ c ∈ s.data.map Char.toNat, c < 0x110000 := by
    intro s c hc
    simp only [List.mem_map] at hc
    obtain ⟨ch, _, rfl⟩ := hc
    exact char_toNat_lt ch
  have hmap : a.data.map Char.toNat = b.data.map Char.toNat :=
    utf8EncodeCodes_inj _ _ (hvalid a) (hvalid b) h
  have hinj : Function.Injective Char.toNat := by
    intro x y hxy
    have hv : x.val.toNat = y.val.toNat := hxy
    exact Char.ext (UInt32.ext hv)
  have hd : a.data = b.data := List.map_injective_iff.mpr hinj hmap
  exact String.ext hd

/-! ## The worker's constant-time comparison (`LiveStatusDO.equals`)

Translated from `equals(a, b)`: encode both strings with `TextEncoder`,
return `false` if the byte lengths differ, otherwise OR-accumulate the XOR
of the byte pairs and compare the accumulator with zero. -/

/-- Byte-level body of `equals`: length check, then `diff |= ua[i] ^ ub[i]`
over the full length, then `diff === 0`. -/
def ctEqBytes (ua ub : List Nat) : Bool :=
  if ua.length ≠ ub.length then false
  else ((List.zipWith (fun a b => a ^^^ b) ua ub).foldl (fun d x => d ||| x) 0) == 0

/-- The worker's constant-time string comparison `equals(a, b)`. -/
def equals (a b : String) : Bool :=
  ctEqBytes (utf8Encode a) (utf8Encode b)

theorem lor_eq_zero_iff (a b : Nat) : a ||| b = 0 ↔ a = 0 ∧ b = 0 := by
  constructor
  · intro h
    constructor
    · apply Nat.eq_of_testBit_eq
      intro i
      have hbit := congrArg (fun n => Nat.testBit n i) h
      simp only [Nat.testBit_lor, Nat.zero_testBit, Bool.or_eq_false_iff] at hbit
      simp [hbit.1]
    · apply Nat.eq_of_testBit_eq
      intro i
      have hbit := congrArg (fun n => Nat.testBit n i) h
      simp only [Nat.testBit_lor, Nat.zero_testBit, Bool.or_eq_false_iff] at hbit
      simp [hbit.2]
  · rintro ⟨rfl, rfl⟩
    rfl

theorem foldl_lor_eq_zero_iff (l : List Nat) : ∀ d : Nat,
    l.foldl (fun d x => d ||| x) d = 0 ↔ d = 0 ∧ ∀ x ∈ l, x = 0 := by
  induction l with
  | nil => intro d; simp
  | cons a l ih =>
    intro d
    rw [List.foldl_cons, ih (d ||| a)]
    rw [lor_eq_zero_iff]
    constructor
    · rintro ⟨⟨hd, ha⟩, hl⟩
      exact ⟨hd, by intro x hx; rcases List.mem_cons.mp hx with rfl | hx
                    exacts [ha, hl x hx]⟩
    · rintro ⟨hd, hall⟩
      exact ⟨⟨hd, hall a (by simp)⟩, fun x hx => hall x (by simp [hx])⟩

theorem zipWith_xor_all_zero_iff : ∀ ua ub : List Nat, ua.length = ub.length →
    ((∀ x ∈ List.zipWith (fun a b => a ^^^ b) ua ub, x = 0) ↔ ua = ub) := by
  intro ua
  induction ua with
  | nil =>
    intro ub hl
    cases ub with
    | nil => simp
    | cons b ub => simp at hl
  | cons a ua ih =>
    intro ub hl
    cases ub with
    | nil => simp at hl
    | cons b ub =>
      simp only [List.zipWith_cons_cons, List.mem_cons, List.cons.injEq]
      rw [List.length_cons, List.length_cons] at hl
      constructor
      · intro h
        have ha : a ^^^ b = 0 := h _ (Or.inl rfl)
        exact ⟨Nat.xor_eq_zero.mp ha, (ih ub (by omega)).mp (fun x hx => h x (Or.inr hx))⟩
      · rintro ⟨rfl, rfl⟩
        intro x hx
        rcases hx with rfl | hx
        · exact Nat.xor_self a
        · exact (ih ua (by omega)).mpr rfl x hx

theorem ctEqBytes_eq_true_iff (ua ub : List Nat) : ctEqBytes ua ub = true ↔ ua = ub := by
  unfold ctEqBytes
  by_cases hl : ua.length = ub.length
  · rw [if_neg (by simp [hl])]
    rw [beq_iff_eq, foldl_lor_eq_zero_iff]
    constructor
    · rintro ⟨-, hall⟩
      exact (zipWith_xor_all_zero_iff ua ub hl).mp hall
    · rintro rfl
      exact ⟨rfl, (zipWith_xor_all_zero_iff ua ua rfl).mpr rfl⟩
  · rw [if_pos (by simp [hl])]
    constructor
    · intro h; exact absurd h (by simp)
    · rintro rfl; exact absurd rfl hl

/-- The worker's `equals` decides string equality: it accepts exactly the
equal pairs (via injectivity of the UTF-8 encoding). -/
theorem equals_eq_true_iff (a b : String) : equals a b = true ↔ a = b := by
  unfold equals
  rw [ctEqBytes_eq_true_iff]
  constructor
  · exact utf8Encode_inj
  · rintro rfl; rfl

theorem equals_self (a : String) : equals a a = true :=
  (equals_eq_true_iff a a).mpr rfl

/-! ## Hex rendering of a MAC (`.toString(16).padStart(2, '0')` join) -/

/-- One lowercase hex digit. -/
def hexDigitChar (n : Nat) : Char :=
  if n < 10 then Char.ofNat (48 + n) else Char.ofNat (87 + n)

/-- `b.toString(16).padStart(2, '0')` for a byte value. -/
def byteToHex (b : Nat) : String :=
  String.mk [hexDigitChar (b / 16), hexDigitChar (b % 16)]

/-- `Array.from(bytes).map(byteToHex).join('')`. -/
def bytesToHex (bs : List Nat) : String :=
  String.join (bs.map byteToHex)

/-! ## `JSON.stringify` of the snapshot object

Every message the actor pushes to its real-time listeners is
`JSON.stringify({ live: <bool>, videoId: <value> })`.  `JSON.stringify`
keeps `null`-valued properties, quotes strings (escaping `"`, `\` and
control characters), and OMITS properties whose value is `undefined`. -/

/-- The possible JS values of the `videoId` property. -/
inductive JsVal where
  | undef : JsVal
  | null : JsVal
  | str (s : String) : JsVal
deriving DecidableEq, Repr

/-- JSON string escape of one character, as `JSON.stringify` renders it. -/
def jsonEscapeChar (c : Char) : String :=
  if c = '"' then "\\\""
  else if c = '\\' then "\\\\"
  else if c = '\x08' then "\\b"
  else if c = '\x0c' then "\\f"
  else if c = '\n' then "\\n"
  else if c = '\r' then "\\r"
  else if c = '\t' then "\\t"
  else if c.toNat < 0x20 then "\\u00" ++ byteToHex c.toNat
  else String.mk [c]

/-- `JSON.stringify` of a string value. -/
def jsonQuote (s : String) : String :=
  "\"" ++ String.join (s.data.map jsonEscapeChar) ++ "\""

/-- `JSON.stringify({ live: <live>, videoId: <v> })`: key order follows the
object literal; an `undefined` videoId is omitted, `null` is kept. -/
def snapshotMsg (live : Bool) (v : JsVal) : String :=
  let liveStr := if live then "true" else "false"
  match v with
  | JsVal.undef => "\x7b\"live\":" ++ liveStr ++ "\x7d"
  | JsVal.null => "\x7b\"live\":" ++ liveStr ++ ",\"videoId\":null\x7d"
  | JsVal.str s => "\x7b\"live\":" ++ liveStr ++ ",\"videoId\":" ++ jsonQuote s ++ "\x7d"

/-! ## Data model of the actor

`DOState` is the durable storage of `LiveStatusDO`: the three persisted
keys `videoId`, `pshbExpires` and `lastFlush`.  Times (`Date.now()`) are
naturals (milliseconds). -/

/-- Worker environment bindings used by the actor. -/
structure Env where
  UPDATE_SECRET : String
  WEBHOOK_SECRET : String
  VERIFY_TOKEN : String
deriving DecidableEq, Repr

/-- The stored `videoId` value.  The program distinguishes a missing key
(`storage.get` yields `undefined`) from an explicitly stored JSON `null`
(the nothing-live /flush branch runs `storage.put('videoId', newVid)` with
`newVid = null`) and from a stored string. -/
inductive StoredVal where
  | absent : StoredVal
  | nullVal : StoredVal
  | str (s : String) : StoredVal
deriving DecidableEq, Repr

/-- JS truthiness of the value `storage.get('videoId')` returns:
`undefined`, `null` and `""` are falsy. -/
def StoredVal.truthy : StoredVal → Bool
  | StoredVal.absent => false
  | StoredVal.nullVal => false
  | StoredVal.str s => s ≠ ""

/-- The stored value as the JS value placed under the `videoId` key of a
snapshot object. -/
def StoredVal.toJsVal : StoredVal → JsVal
  | StoredVal.absent => JsVal.undef
  | StoredVal.nullVal => JsVal.null
  | StoredVal.str s => JsVal.str s

/-- The persisted durable-object storage: `videoId`, `pshbExpires`,
`lastFlush` (the latter two independently present or absent). -/
structure DOState where
  videoId : StoredVal
  pshbExpires : Option JsNum
  lastFlush : Option Nat
deriving DecidableEq, Repr

/-- A plain HTTP response: status plus (optional) text body. -/
structure HttpResp where
  status : Nat
  body : Option String
deriving DecidableEq, Repr

/-- Result of one actor request: the storage afterwards, the response, and
the message (if any) broadcast to every registered real-time listener. -/
structure DOResult where
  state : DOState
  resp : HttpResp
  broadcasts : List String
deriving DecidableEq, Repr

/-- The exact expected feed URL for the monitored channel
(`expectedTopic` in the source). -/
def expectedTopic : String :=
  "https://www.youtube.com/xml/feeds/videos.xml?channel_id=UC2I6ta1bWX7DnEuYNvHiptQ"

/-- The `liveStreamingDetails` object of a YouTube `videos` API item. -/
structure LiveStreamingDetails where
  actualStartTime : Option String
  actualEndTime : Option String
deriving DecidableEq, Repr

/-- One item of a YouTube `videos` API response. -/
structure YtItem where
  liveStreamingDetails : Option LiveStreamingDetails
deriving DecidableEq, Repr

/-- Outcome of the external YouTube `videos` metadata lookup: a non-ok
HTTP status, or the parsed `items` array. -/
inductive YtLookup where
  | fail (status : Nat) : YtLookup
  | ok (items : List YtItem) : YtLookup
deriving DecidableEq, Repr

/-! ## GET /webhook — PubSubHubbub handshake

Translated from the feature-complete revision of the actor (the one that
persists the lease): on acceptance it computes
`leaseSeconds = Number(hub.lease_seconds) ?? 432000`, stores
`pshbExpires = Date.now() + leaseSeconds * 1000` and echoes the challenge;
otherwise it responds 400 `Invalid subscription request`. -/

/-- The handshake query parameters (`url.searchParams.get(...)`, `none`
when the parameter is absent). -/
structure HubQuery where
  mode : Option String
  topic : Option String
  challenge : Option String
  verifyToken : Option String
  leaseSeconds : Option String
deriving DecidableEq, Repr

/-- The handshake acceptance condition:
`mode === 'subscribe' && topic === expectedTopic &&
 verifyTok === env.VERIFY_TOKEN && challenge`. -/
def handshakeAccepts (env : Env) (q : HubQuery) : Bool :=
  (q.mode == some "subscribe") && (q.topic == some expectedTopic) &&
    (q.verifyToken == some env.VERIFY_TOKEN) && jsTruthyStr q.challenge

/-- `Number(url.searchParams.get("hub.lease_seconds")) ?? 432_000` as written
in the lease-persisting durable-object revision: the `??` default is dead
code because `Number(...)` is never nullish. -/
def leaseSecondsP004 (p : Option String) : JsNum :=
  jsNullishNum (jsToNumber p) (JsNum.num 432000)

/-- `Number(url.searchParams.get('hub.lease_seconds')) || 432000` as written
in the KV-worker revision: the default applies to falsy results (`0`, NaN). -/
def leaseSecondsP002 (p : Option String) : JsNum :=
  jsOrNum (jsToNumber p) (JsNum.num 432000)

/-- The GET /webhook handshake handler (lease-persisting revision). -/
def handshakeGet (env : Env) (q : HubQuery) (now : Nat) (st : DOState) :
    DOState × HttpResp :=
  if handshakeAccepts env q then
    let leaseSeconds := leaseSecondsP004 q.leaseSeconds
    let expiresAt := jsAdd (JsNum.num now) (jsMul leaseSeconds (JsNum.num 1000))
    ({ st with pshbExpires := some expiresAt },
      { status := 200, body := q.challenge })
  else
    (st, { status := 400, body := some "Invalid subscription request" })

/-! ## POST /webhook — push notification

Translated from the durable-object `fetch` webhook branch.  External
collaborators appear as inputs: `hmac` is the platform's HMAC-SHA256
primitive (`crypto.subtle.sign('HMAC', key, data)` keyed with the UTF-8
bytes of the secret); `parsedVideoId` is `entry?.['yt:videoId']` as
extracted by `fast-xml-parser` from the request body; `yt` is the YouTube
metadata lookup response. -/

/-- The POST /webhook request data: the two auth headers (absent = `none`),
the raw body bytes, and the feed parser's extracted video id. -/
structure WebhookPostReq where
  token : Option String
  signatureHeader : Option String
  body : List Nat
  parsedVideoId : Option String
deriving DecidableEq, Repr

/-- JS `String.prototype.startsWith`. -/
def jsStartsWith (s p : String) : Bool :=
  p.data.isPrefixOf s.data

/-- JS `String.prototype.slice(n)` (drop the first `n` code units). -/
def jsSliceFrom (s : String) (n : Nat) : String :=
  String.mk (s.data.drop n)

/-- The signature check of POST /webhook as a Boolean: true exactly when a
`sha256=`-prefixed header is present and its hex differs from the HMAC of
the body. -/
def sigCheckRejects (hmac : List Nat → List Nat → List Nat) (env : Env)
    (req : WebhookPostReq) : Bool :=
  if jsStartsWith (req.signatureHeader.getD "") "sha256=" then
    !(equals (jsSliceFrom (req.signatureHeader.getD "") 7)
      (bytesToHex (hmac (utf8Encode env.WEBHOOK_SECRET) req.body)))
  else false

/-- The POST /webhook handler. -/
def postWebhook (hmac : List Nat → List Nat → List Nat) (env : Env)
    (req : WebhookPostReq) (yt : YtLookup) (st : DOState) : DOResult :=
  let secret := env.WEBHOOK_SECRET
  let token := req.token.getD ""
  if !(equals token secret) then
    { state := st, resp := { status := 401, body := some "Unauthorized" }, broadcasts := [] }
  else
    let sigRejected : Bool := sigCheckRejects hmac env req
    if sigRejected then
      { state := st, resp := { status := 401, body := some "Unauthorized (bad signature)" },
        broadcasts := [] }
    else
      match req.parsedVideoId with
      | none =>
        { state := st, resp := { status := 204, body := none }, broadcasts := [] }
      | some videoId =>
        if videoId = "" then
          { state := st, resp := { status := 204, body := none }, broadcasts := [] }
        else
          match yt with
          | YtLookup.fail _ =>
            { state := st, resp := { status := 204, body := none }, broadcasts := [] }
          | YtLookup.ok items =>
            let item := items.head?
            let isLivestream := (item.bind YtItem.liveStreamingDetails).isSome
            if isLivestream then
              { state := { st with videoId := StoredVal.str videoId },
                resp := { status := 204, body := none },
                broadcasts := [snapshotMsg true (JsVal.str videoId)] }
            else
              { state := st, resp := { status := 204, body := none }, broadcasts := [] }

/-! ## POST /update — privileged direct set/clear -/

/-- The POST /update handler: `X-Control-Token` must equal the update
secret; the JSON body's `videoId` (string or null) is stored or deleted
and the new snapshot broadcast. -/
def postUpdate (env : Env) (ctrlToken : Option String) (bodyVideoId : Option String)
    (st : DOState) : DOResult :=
  if ctrlToken ≠ some env.UPDATE_SECRET then
    { state := st, resp := { status := 403, body := none }, broadcasts := [] }
  else
    let st' :=
      match bodyVideoId with
      | some v =>
        if v = "" then { st with videoId := StoredVal.absent }
        else { st with videoId := StoredVal.str v }
      | none => { st with videoId := StoredVal.absent }
    let msgVal :=
      match bodyVideoId with
      | some s => JsVal.str s
      | none => JsVal.null
    { state := st', resp := { status := 204, body := none },
      broadcasts := [snapshotMsg (jsTruthyStr bodyVideoId) msgVal] }

/-! ## WebSocket upgrade — initial snapshot

On upgrade the actor reads `videoId` from storage (`undefined` when the
key is absent) and sends `JSON.stringify({ live: !!current, videoId:
current })` to the new connection. -/

/-- The snapshot message sent to a freshly connected real-time listener:
`JSON.stringify({ live: !!current, videoId: current })` with `current` the
stored value — `undefined` when the key is absent, the explicit `null`
when one was stored, else the string. -/
def wsConnectMsg (st : DOState) : String :=
  let current := st.videoId
  snapshotMsg current.truthy current.toJsVal

/-! ## POST /flush — manual refresh with cooldown -/

/-- Outcome of the external YouTube live search: a non-ok HTTP status, or
`data.items?.[0]?.id.videoId ?? null`. -/
inductive SearchResult where
  | fail (status : Nat) (statusText : String) : SearchResult
  | ok (firstVideoId : Option String) : SearchResult
deriving DecidableEq, Repr

/-- The /flush responses, by the branch of the handler that produced them. -/
inductive FlushResp where
  | cooldown (retryAfter : Int) : FlushResp
  | apiError (status : Nat) (statusText : String) : FlushResp
  | notLive : FlushResp
  | live (videoId : String) : FlushResp
deriving DecidableEq, Repr

/-- HTTP status of each /flush response. -/
def FlushResp.status : FlushResp → Nat
  | FlushResp.cooldown _ => 429
  | FlushResp.apiError _ _ => 502
  | FlushResp.notLive => 404
  | FlushResp.live _ => 200

/-- The flush cooldown, `30 * 60 * 1000` ms. -/
def COOLDOWN : Nat := 30 * 60 * 1000

/-- The POST /flush handler.  `now` is `Date.now()`; `search` is the
external live-search response (unconsulted on the cooldown branch). -/
def postFlush (now : Nat) (search : SearchResult) (st : DOState) :
    DOState × FlushResp × List String :=
  let lastFlush := st.lastFlush.getD 0
  let since : Int := (now : Int) - (lastFlush : Int)
  if since < (COOLDOWN : Int) then
    let retryAfter : Int := ⌈(((COOLDOWN : Int) - since : Int) : ℚ) / 1000⌉
    (st, FlushResp.cooldown retryAfter, [])
  else
    let st1 := { st with lastFlush := some now }
    match search with
    | SearchResult.fail s t => (st1, FlushResp.apiError s t, [])
    | SearchResult.ok newVid =>
      let st2 := { st1 with videoId :=
        match newVid with
        | none => StoredVal.nullVal
        | some v => StoredVal.str v }
      let msg := snapshotMsg (jsTruthyStr newVid)
        (match newVid with
         | none => JsVal.null
         | some v => JsVal.str v)
      if !(jsTruthyStr newVid) then
        (st2, FlushResp.notLive, [msg])
      else
        (st2, FlushResp.live (newVid.getD ""), [msg])

/-! ## The signature-compute utility

Translated from `computeSignature(secret, payload)` in the utility script:
`'sha256=' + createHmac('sha256', secret).update(payload).digest('hex')`.
Node keys the HMAC with the UTF-8 bytes of `secret` and feeds it the UTF-8
bytes of `payload`; the primitive itself is the same external HMAC-SHA256
function `hmac` the worker calls through `crypto.subtle`. -/

/-- `computeSignature` of the signature-compute utility. -/
def computeSignature (hmac : List Nat → List Nat → List Nat)
    (secret payload : String) : String :=
  "sha256=" ++ bytesToHex (hmac (utf8Encode secret) (utf8Encode payload))

/-! ## scheduled — subscription renewal

Translated from the cron handler: read the `x-pshb-expires` status header,
parse it (`Number`, rejected if NaN), compute
`renewWindow = leaseSec * 1000 * 0.1` with
`leaseSec = Number(env.PSHB_LEASE_SECONDS || '432000')`, and POST the
subscribe form to the hub only under
`if (expires && expires - now < renewWindow)`. -/

/-- Environment of the scheduled handler. -/
structure SchedEnv where
  PSHB_LEASE_SECONDS : Option String
  VERIFY_TOKEN : String
  WEBHOOK_SECRET : String
deriving DecidableEq, Repr

/-- The form fields of the hub subscription request
(`hub.lease_seconds` kept as the numeric value that is stringified). -/
structure SubscribeForm where
  mode : String
  topic : String
  callback : String
  verify : String
  verifyToken : String
  secret : String
  leaseSeconds : JsNum
deriving DecidableEq, Repr

/-- Parse of the `x-pshb-expires` header in the scheduled handler:
`Number(expiryHeader)`, kept only when the header is present and the
number is not NaN. -/
def parseExpiry (h : Option String) : Option ℚ :=
  match h with
  | none => none
  | some s =>
    match jsToNumber (some s) with
    | JsNum.nan => none
    | JsNum.num v => some v

/-- `leaseSec = Number(env.PSHB_LEASE_SECONDS || '432000')`. -/
def schedLeaseSec (env : SchedEnv) : JsNum :=
  jsToNumber (some (jsOrStr env.PSHB_LEASE_SECONDS "432000"))

/-- `renewWindow = leaseSec * 1000 * 0.1`. -/
def renewWindow (env : SchedEnv) : JsNum :=
  jsMul (jsMul (schedLeaseSec env) (JsNum.num 1000)) (JsNum.num (1 / 10 : ℚ))

/-- JS truthiness of the `expires : number | null` local. -/
def expiresTruthy : Option ℚ → Bool
  | none => false
  | some e => e ≠ 0

/-- The subscribe form the renewal POSTs to the hub. -/
def subscribeForm (env : SchedEnv) (callbackUrl : String) : SubscribeForm :=
  { mode := "subscribe"
    topic := expectedTopic
    callback := callbackUrl
    verify := "async"
    verifyToken := env.VERIFY_TOKEN
    secret := env.WEBHOOK_SECRET
    leaseSeconds := schedLeaseSec env }

/-- The renewal step of the scheduled handler: `some form` means a
subscription request with that form is issued to the external hub,
`none` means no request is issued. -/
def scheduledRenew (env : SchedEnv) (callbackUrl : String)
    (expiryHeader : Option String) (now : Nat) : Option SubscribeForm :=
  let expires := parseExpiry expiryHeader
  if expiresTruthy expires &&
      jsLt (jsSub (JsNum.num (expires.getD 0)) (JsNum.num now)) (renewWindow env) then
    some (subscribeForm env callbackUrl)
  else
    none

/-! ## scheduled — reconciliation of a recorded live video

Translated from the cron handler's end-check: read the current `videoId`
from /status, look the video up, compute
`hasEnded = !details || !!details.actualEndTime`, and when ended POST
`{videoId: null}` to /update with the control token (which clears storage
and broadcasts the offline snapshot). -/

/-- `details = data.items?.[0]?.liveStreamingDetails` of the lookup. -/
def detailsOf (items : List YtItem) : Option LiveStreamingDetails :=
  items.head?.bind YtItem.liveStreamingDetails

/-- `hasEnded = !details || !!details.actualEndTime`. -/
def hasEnded (items : List YtItem) : Bool :=
  let details := detailsOf items
  details.isNone || ((details.bind LiveStreamingDetails.actualEndTime).isSome)

/-- One reconciliation pass over the recorded video: the storage afterwards
and the messages broadcast to every registered listener. -/
def scheduledReconcile (env : Env) (yt : YtLookup) (st : DOState) :
    DOState × List String :=
  match st.videoId with
  | StoredVal.absent => (st, [])
  | StoredVal.nullVal => (st, [])
  | StoredVal.str v =>
    if v = "" then (st, [])
    else
      match yt with
      | YtLookup.fail _ => (st, [])
      | YtLookup.ok items =>
        if hasEnded items then
          let r := postUpdate env (some env.UPDATE_SECRET) none st
          (r.state, r.broadcasts)
        else (st, [])

/-! ## Supporting lemmas -/

theorem jsTruthyStr_iff (o : Option String) :
    jsTruthyStr o = true ↔ ∃ c, o = some c ∧ c ≠ "" := by
  cases o with
  | none => simp [jsTruthyStr]
  | some s => simp [jsTruthyStr]

theorem handshakeAccepts_iff (env : Env) (q : HubQuery) :
    handshakeAccepts env q = true ↔
      (q.mode = some "subscribe" ∧ q.topic = some expectedTopic ∧
        q.verifyToken = some env.VERIFY_TOKEN ∧ ∃ c, q.challenge = some c ∧ c ≠ "") := by
  unfold handshakeAccepts
  rw [Bool.and_eq_true, Bool.and_eq_true, Bool.and_eq_true]
  rw [beq_iff_eq, beq_iff_eq, beq_iff_eq, jsTruthyStr_iff]
  tauto

/-- C1: a GET /webhook handshake responds 200 with body exactly the
presented challenge iff mode is `subscribe`, the topic is the expected
feed URL, the verify token matches the configured secret and the
challenge is present and non-empty; any request failing one of the
conditions gets a 400 and leaves all stored state unchanged. -/
theorem c1_handshake_accept_iff (env : Env) (q : HubQuery) (now : Nat) (st : DOState) :
    (((handshakeGet env q now st).2.status = 200 ∧
        (handshakeGet env q now st).2.body = q.challenge) ↔
      (q.mode = some "subscribe" ∧ q.topic = some expectedTopic ∧
        q.verifyToken = some env.VERIFY_TOKEN ∧ ∃ c, q.challenge = some c ∧ c ≠ "")) ∧
    (¬ (q.mode = some "subscribe" ∧ q.topic = some expectedTopic ∧
        q.verifyToken = some env.VERIFY_TOKEN ∧ ∃ c, q.challenge = some c ∧ c ≠ "") →
      handshakeGet env q now st =
        (st, { status := 400, body := some "Invalid subscription request" })) := by
  by_cases hacc : handshakeAccepts env q = true
  · constructor
    · apply iff_of_true
      · unfold handshakeGet
        rw [if_pos hacc]
        exact ⟨rfl, rfl⟩
      · exact (handshakeAccepts_iff env q).mp hacc
    · intro hn
      exact absurd ((handshakeAccepts_iff env q).mp hacc) hn
  · constructor
    · apply iff_of_false
      · unfold handshakeGet
        rw [if_neg hacc]
        intro hcontra
        simp at hcontra
      · intro hconds
        exact hacc ((handshakeAccepts_iff env q).mpr hconds)
    · intro _
      unfold handshakeGet
      rw [if_neg hacc]

/-- C2 (failing evaluation): on an accepted handshake whose
`hub.lease_seconds` parameter is ABSENT, the lease-persisting revision
stores `pshbExpires = now + 0` — `Number(null)` is `0` and the
`?? 432_000` default is dead code — rather than the claimed
`now + 432000 * 1000`. -/
theorem c2_lease_default_dead :
    ((handshakeGet { UPDATE_SECRET := "u", WEBHOOK_SECRET := "w", VERIFY_TOKEN := "vt" }
        { mode := some "subscribe", topic := some expectedTopic,
          challenge := some "XYZ123", verifyToken := some "vt", leaseSeconds := none }
        1700000000000
        { videoId := StoredVal.absent, pshbExpires := none, lastFlush := none }).2.status = 200) ∧
    ((handshakeGet { UPDATE_SECRET := "u", WEBHOOK_SECRET := "w", VERIFY_TOKEN := "vt" }
        { mode := some "subscribe", topic := some expectedTopic,
          challenge := some "XYZ123", verifyToken := some "vt", leaseSeconds := none }
        1700000000000
        { videoId := StoredVal.absent, pshbExpires := none, lastFlush := none }).1.pshbExpires =
      some (JsNum.num 1700000000000)) ∧
    (JsNum.num (1700000000000 : ℚ) ≠ JsNum.num ((1700000000000 : ℚ) + 432000 * 1000)) := by
  refine ⟨?_, ?_, ?_⟩
  · decide
  · unfold handshakeGet
    rw [if_pos (by decide)]
    show some (jsAdd (JsNum.num 1700000000000)
      (jsMul (leaseSecondsP004 none) (JsNum.num 1000))) = _
    norm_num [leaseSecondsP004, jsNullishNum, jsToNumber, jsAdd, jsMul]
  · simp only [ne_eq, JsNum.num.injEq]
    norm_num

theorem jsStartsWith_append (p x : String) : jsStartsWith (p ++ x) p = true := by
  unfold jsStartsWith
  rw [String.data_append, List.isPrefixOf_iff_prefix]
  exact List.prefix_append _ _

theorem jsSliceFrom_append7 (x : String) : jsSliceFrom ("sha256=" ++ x) 7 = x := by
  unfold jsSliceFrom
  have h7 : ("sha256=" : String).data.length = 7 := by decide
  apply String.ext
  show List.drop 7 (("sha256=" ++ x).data) = x.data
  rw [String.data_append, ← h7, List.drop_left]

theorem postWebhook_resp_after_token (hmac : List Nat → List Nat → List Nat) (env : Env)
    (req : WebhookPostReq) (yt : YtLookup) (st : DOState)
    (h : equals (req.token.getD "") env.WEBHOOK_SECRET = true) :
    (postWebhook hmac env req yt st).resp =
        { status := 401, body := some "Unauthorized (bad signature)" } ∨
    (postWebhook hmac env req yt st).resp = { status := 204, body := none } := by
  unfold postWebhook
  rw [if_neg (by simp [h])]
  dsimp only
  repeat' split
  all_goals first
    | exact Or.inl rfl
    | exact Or.inr rfl

theorem postWebhook_resp_authed (hmac : List Nat → List Nat → List Nat) (env : Env)
    (req : WebhookPostReq) (yt : YtLookup) (st : DOState)
    (htok : equals (req.token.getD "") env.WEBHOOK_SECRET = true)
    (hsig : sigCheckRejects hmac env req = false) :
    (postWebhook hmac env req yt st).resp = { status := 204, body := none } := by
  unfold postWebhook
  rw [if_neg (by simp [htok])]
  dsimp only
  rw [if_neg (by simp [hsig])]
  repeat' split
  all_goals rfl

/-- C3: the POST /webhook shared-secret check rejects with the 401
`Unauthorized` response exactly when the presented `X-Webhook-Token`
(the empty string when the header is absent) differs from the configured
secret, and the rejection leaves the stored state untouched and
broadcasts nothing; a token equal to the secret never produces that
response. -/
theorem c3_token_check_iff (hmac : List Nat → List Nat → List Nat) (env : Env)
    (req : WebhookPostReq) (yt : YtLookup) (st : DOState) :
    ((postWebhook hmac env req yt st).resp =
        { status := 401, body := some "Unauthorized" } ↔
      req.token.getD "" ≠ env.WEBHOOK_SECRET) ∧
    (req.token.getD "" ≠ env.WEBHOOK_SECRET →
      postWebhook hmac env req yt st =
        { state := st, resp := { status := 401, body := some "Unauthorized" },
          broadcasts := [] }) := by
  by_cases h : equals (req.token.getD "") env.WEBHOOK_SECRET = true
  · have heq : req.token.getD "" = env.WEBHOOK_SECRET := (equals_eq_true_iff _ _).mp h
    constructor
    · apply iff_of_false
      · intro hc
        rcases postWebhook_resp_after_token hmac env req yt st h with h1 | h1 <;>
          · rw [h1] at hc
            exact absurd hc (by decide)
      · simp [heq]
    · intro hn
      exact absurd heq hn
  · have hne : req.token.getD "" ≠ env.WEBHOOK_SECRET := fun hc =>
      h ((equals_eq_true_iff _ _).mpr hc)
    have hpw : postWebhook hmac env req yt st =
        { state := st, resp := { status := 401, body := some "Unauthorized" },
          broadcasts := [] } := by
      unfold postWebhook
      rw [if_pos (by simp [h])]
    constructor
    · rw [hpw]
      exact iff_of_true rfl hne
    · intro _
      exact hpw

/-- C4: the signature-compute utility round-trips with the webhook's
verifier — a POST /webhook request whose token is the shared secret,
whose body is the payload's bytes and whose `X-Hub-Signature-256` header
is `computeSignature(secret, payload)` passes both authentication stages
(whatever the feed parse, metadata lookup and stored state are, the
response is the 204 of the post-auth branches, never a 401). -/
theorem c4_signature_roundtrip (hmac : List Nat → List Nat → List Nat) (env : Env)
    (payload : String) (pv : Option String) (yt : YtLookup) (st : DOState) :
    (postWebhook hmac env
      { token := some env.WEBHOOK_SECRET
        signatureHeader := some (computeSignature hmac env.WEBHOOK_SECRET payload)
        body := utf8Encode payload
        parsedVideoId := pv } yt st).resp =
      { status := 204, body := none } := by
  apply postWebhook_resp_authed
  · exact equals_self _
  · unfold sigCheckRejects computeSignature
    dsimp only [Option.getD_some]
    rw [if_pos (jsStartsWith_append _ _), jsSliceFrom_append7, equals_self]
    rfl

/-- C10 (implicit invariant): a POST /webhook request never changes
`pshbExpires` or `lastFlush`, and its resulting `videoId` is either the
pre-request value or the id the feed parser extracted — a push can set
the live state but can never clear it. -/
theorem c10_push_preserves_state (hmac : List Nat → List Nat → List Nat) (env : Env)
    (req : WebhookPostReq) (yt : YtLookup) (st : DOState) :
    (postWebhook hmac env req yt st).state.pshbExpires = st.pshbExpires ∧
    (postWebhook hmac env req yt st).state.lastFlush = st.lastFlush ∧
    ((postWebhook hmac env req yt st).state.videoId = st.videoId ∨
      ∃ v, req.parsedVideoId = some v ∧
        (postWebhook hmac env req yt st).state.videoId = StoredVal.str v) := by
  unfold postWebhook
  dsimp only
  split
  · exact ⟨rfl, rfl, Or.inl rfl⟩
  · split
    · exact ⟨rfl, rfl, Or.inl rfl⟩
    · split
      · exact ⟨rfl, rfl, Or.inl rfl⟩
      · rename_i v heq
        split
        · exact ⟨rfl, rfl, Or.inl rfl⟩
        · split
          · exact ⟨rfl, rfl, Or.inl rfl⟩
          · split
            · exact ⟨rfl, rfl, Or.inr ⟨v, heq, rfl⟩⟩
            · exact ⟨rfl, rfl, Or.inl rfl⟩

/-- C5: an authenticated push (token equal to the secret, no signature
header) whose extracted video id has live-streaming-details present in
the metadata response stores that id and broadcasts
`{"live":true,"videoId":"<id>"}` to every registered listener; one whose
video lacks live-streaming-details entirely leaves the state unchanged,
broadcasts nothing, and still responds 204. -/
theorem c5_livestream_write (hmac : List Nat → List Nat → List Nat) (env : Env)
    (body : List Nat) (v : String) (items : List YtItem) (st : DOState)
    (hv : v ≠ "") :
    ((detailsOf items).isSome = true →
      postWebhook hmac env
        { token := some env.WEBHOOK_SECRET, signatureHeader := none,
          body := body, parsedVideoId := some v } (YtLookup.ok items) st =
        { state := { st with videoId := StoredVal.str v },
          resp := { status := 204, body := none },
          broadcasts := [snapshotMsg true (JsVal.str v)] }) ∧
    ((detailsOf items).isSome = false →
      postWebhook hmac env
        { token := some env.WEBHOOK_SECRET, signatureHeader := none,
          body := body, parsedVideoId := some v } (YtLookup.ok items) st =
        { state := st, resp := { status := 204, body := none }, broadcasts := [] }) := by
  have hbase : postWebhook hmac env
      { token := some env.WEBHOOK_SECRET, signatureHeader := none,
        body := body, parsedVideoId := some v } (YtLookup.ok items) st =
      (if (detailsOf items).isSome then
        { state := { st with videoId := StoredVal.str v },
          resp := { status := 204, body := none },
          broadcasts := [snapshotMsg true (JsVal.str v)] }
      else
        { state := st, resp := { status := 204, body := none }, broadcasts := [] }) := by
    unfold postWebhook
    rw [if_neg (by simp [equals_self])]
    dsimp only
    rw [if_neg (by
      have hsw : jsStartsWith ("" : String) "sha256=" = false := by decide
      simp [sigCheckRejects, hsw])]
    rw [if_neg hv]
    rfl
  constructor
  · intro hdet
    rw [hbase, if_pos hdet]
  · intro hdet
    rw [hbase, if_neg (by simp [hdet])]

/-- C5 witness: concrete instance with a one-item lookup carrying
live-streaming-details (write and broadcast happen) and the same push
with no details (nothing happens). -/
theorem c5_livestream_write_witness :
    postWebhook (fun _ _ => []) { UPDATE_SECRET := "u", WEBHOOK_SECRET := "w", VERIFY_TOKEN := "vt" }
      { token := some "w", signatureHeader := none, body := [], parsedVideoId := some "vid123" }
      (YtLookup.ok [⟨some ⟨some "t0", none⟩⟩])
      { videoId := StoredVal.absent, pshbExpires := none, lastFlush := none } =
      { state := { videoId := StoredVal.str "vid123", pshbExpires := none, lastFlush := none },
        resp := { status := 204, body := none },
        broadcasts := [snapshotMsg true (JsVal.str "vid123")] } ∧
    postWebhook (fun _ _ => []) { UPDATE_SECRET := "u", WEBHOOK_SECRET := "w", VERIFY_TOKEN := "vt" }
      { token := some "w", signatureHeader := none, body := [], parsedVideoId := some "vid123" }
      (YtLookup.ok [⟨none⟩])
      { videoId := StoredVal.absent, pshbExpires := none, lastFlush := none } =
      { state := { videoId := StoredVal.absent, pshbExpires := none, lastFlush := none },
        resp := { status := 204, body := none }, broadcasts := [] } := by
  constructor
  · exact (c5_livestream_write (fun _ _ => [])
      { UPDATE_SECRET := "u", WEBHOOK_SECRET := "w", VERIFY_TOKEN := "vt" } [] "vid123"
      [⟨some ⟨some "t0", none⟩⟩]
      { videoId := StoredVal.absent, pshbExpires := none, lastFlush := none }
      (by decide)).1 (by decide)
  · exact (c5_livestream_write (fun _ _ => [])
      { UPDATE_SECRET := "u", WEBHOOK_SECRET := "w", VERIFY_TOKEN := "vt" } [] "vid123"
      [⟨none⟩]
      { videoId := StoredVal.absent, pshbExpires := none, lastFlush := none }
      (by decide)).2 (by decide)

/-- C6: on a reconciliation pass over a recorded live id, the video is
classified ended exactly when the live-streaming-details structure is
absent or its end time is present; when ended, the stored id is cleared
and every registered listener receives `{"live":false,"videoId":null}`;
when details are present without an end time, nothing changes. -/
theorem c6_reconcile_ended (env : Env) (items : List YtItem) (st : DOState) (v : String)
    (hst : st.videoId = StoredVal.str v) (hv : v ≠ "") :
    (hasEnded items = true ↔
      detailsOf items = none ∨
        ∃ d, detailsOf items = some d ∧ d.actualEndTime.isSome = true) ∧
    (hasEnded items = true →
      scheduledReconcile env (YtLookup.ok items) st =
        ({ st with videoId := StoredVal.absent }, [snapshotMsg false JsVal.null])) ∧
    (hasEnded items = false →
      scheduledReconcile env (YtLookup.ok items) st = (st, [])) := by
  have hbase : scheduledReconcile env (YtLookup.ok items) st =
      (if hasEnded items then
        ({ st with videoId := StoredVal.absent }, [snapshotMsg false JsVal.null])
      else (st, [])) := by
    unfold scheduledReconcile
    rw [hst]
    dsimp only
    rw [if_neg hv]
    by_cases hend : hasEnded items = true
    · rw [if_pos hend, if_pos hend]
      unfold postUpdate
      rw [if_neg (by simp)]
      rfl
    · rw [if_neg hend, if_neg hend]
  refine ⟨?_, ?_, ?_⟩
  · unfold hasEnded
    cases hdet : detailsOf items with
    | none => simp
    | some d =>
      simp only [Option.isNone_some, Option.some.injEq, Bool.false_or, Option.some_bind]
      constructor
      · intro hsome
        exact Or.inr ⟨d, rfl, hsome⟩
      · rintro (hc | ⟨d2, hd2, hsome⟩)
        · exact absurd hc (by simp)
        · rw [hd2]
          exact hsome
  · intro hend
    rw [hbase, if_pos hend]
  · intro hend
    rw [hbase, if_neg (by simp [hend])]

/-- C6 witness: a recorded id whose lookup returns details with an end
time is cleared and the offline snapshot is broadcast; one with details
and no end time is untouched. -/
theorem c6_reconcile_ended_witness :
    (hasEnded [⟨some ⟨some "t0", some "t1"⟩⟩] = true) ∧
    scheduledReconcile { UPDATE_SECRET := "u", WEBHOOK_SECRET := "w", VERIFY_TOKEN := "vt" }
      (YtLookup.ok [⟨some ⟨some "t0", some "t1"⟩⟩])
      { videoId := StoredVal.str "vid123", pshbExpires := none, lastFlush := none } =
      ({ videoId := StoredVal.absent, pshbExpires := none, lastFlush := none },
        [snapshotMsg false JsVal.null]) ∧
    scheduledReconcile { UPDATE_SECRET := "u", WEBHOOK_SECRET := "w", VERIFY_TOKEN := "vt" }
      (YtLookup.ok [⟨some ⟨some "t0", none⟩⟩])
      { videoId := StoredVal.str "vid123", pshbExpires := none, lastFlush := none } =
      ({ videoId := StoredVal.str "vid123", pshbExpires := none, lastFlush := none }, []) := by
  refine ⟨by decide, ?_, ?_⟩
  · exact (c6_reconcile_ended { UPDATE_SECRET := "u", WEBHOOK_SECRET := "w", VERIFY_TOKEN := "vt" }
      [⟨some ⟨some "t0", some "t1"⟩⟩]
      { videoId := StoredVal.str "vid123", pshbExpires := none, lastFlush := none }
      "vid123" rfl (by decide)).2.1 (by decide)
  · exact (c6_reconcile_ended { UPDATE_SECRET := "u", WEBHOOK_SECRET := "w", VERIFY_TOKEN := "vt" }
      [⟨some ⟨some "t0", none⟩⟩]
      { videoId := StoredVal.str "vid123", pshbExpires := none, lastFlush := none }
      "vid123" rfl (by decide)).2.2 (by decide)

theorem postFlush_lastFlush_accepted (t : Nat) (s : SearchResult) (st : DOState)
    (h : ¬ ((t : Int) - (st.lastFlush.getD 0 : Int) < (COOLDOWN : Int))) :
    ((postFlush t s st).1).lastFlush = some t := by
  unfold postFlush
  dsimp only
  rw [if_neg h]
  cases s with
  | fail a b => rfl
  | ok newVid =>
    dsimp only
    split
    · rfl
    · rfl

/-- C7: a second POST /flush arriving less than 30 minutes after an
accepted one is answered with the cooldown response — status 429 and a
strictly positive `retry_after` — the stored state is exactly what it was
before the second request, and the external search is not consulted (the
result is the same for every search outcome). -/
theorem c7_flush_cooldown (t1 t2 : Nat) (s1 s2 s3 : SearchResult) (st : DOState)
    (h1 : ¬ ((t1 : Int) - (st.lastFlush.getD 0 : Int) < (COOLDOWN : Int)))
    (h2 : (t2 : Int) - (t1 : Int) < (COOLDOWN : Int)) :
    (∃ r : Int, postFlush t2 s2 (postFlush t1 s1 st).1 =
        ((postFlush t1 s1 st).1, FlushResp.cooldown r, []) ∧
      1 ≤ r ∧ (FlushResp.cooldown r).status = 429) ∧
    postFlush t2 s2 (postFlush t1 s1 st).1 = postFlush t2 s3 (postFlush t1 s1 st).1 := by
  have hlf : ((postFlush t1 s1 st).1).lastFlush = some t1 :=
    postFlush_lastFlush_accepted t1 s1 st h1
  have hcool : ∀ s : SearchResult, postFlush t2 s (postFlush t1 s1 st).1 =
      ((postFlush t1 s1 st).1,
        FlushResp.cooldown
          ⌈((((COOLDOWN : Int) - ((t2 : Int) - ((t1 : Nat) : Int))) : Int) : ℚ) / 1000⌉,
        []) := by
    intro s
    generalize hg : (postFlush t1 s1 st).1 = st1 at hlf ⊢
    unfold postFlush
    rw [hlf]
    dsimp only [Option.getD_some]
    rw [if_pos h2]
  have hpos : (1 : Int) ≤
      ⌈((((COOLDOWN : Int) - ((t2 : Int) - ((t1 : Nat) : Int))) : Int) : ℚ) / 1000⌉ := by
    have hip : (0 : Int) <
        ⌈((((COOLDOWN : Int) - ((t2 : Int) - ((t1 : Nat) : Int))) : Int) : ℚ) / 1000⌉ := by
      apply Int.ceil_pos.mpr
      apply div_pos
      · rw [Int.cast_pos]
        omega
      · norm_num
    omega
  constructor
  · exact ⟨_, hcool s2, hpos, rfl⟩
  · rw [hcool s2, hcool s3]

/-- C7 witness: concrete second flush 500 s after an accepted first one. -/
theorem c7_flush_cooldown_witness :
    (∃ r : Int, postFlush 2300000 (SearchResult.ok (some "vid"))
        (postFlush 1800000 (SearchResult.ok none)
          { videoId := StoredVal.absent, pshbExpires := none, lastFlush := none }).1 =
        ((postFlush 1800000 (SearchResult.ok none)
          { videoId := StoredVal.absent, pshbExpires := none, lastFlush := none }).1,
          FlushResp.cooldown r, []) ∧
      1 ≤ r ∧ (FlushResp.cooldown r).status = 429) ∧
    postFlush 2300000 (SearchResult.ok (some "vid"))
        (postFlush 1800000 (SearchResult.ok none)
          { videoId := StoredVal.absent, pshbExpires := none, lastFlush := none }).1 =
      postFlush 2300000 (SearchResult.fail 500 "err")
        (postFlush 1800000 (SearchResult.ok none)
          { videoId := StoredVal.absent, pshbExpires := none, lastFlush := none }).1 :=
  c7_flush_cooldown 1800000 2300000 (SearchResult.ok none)
    (SearchResult.ok (some "vid")) (SearchResult.fail 500 "err")
    { videoId := StoredVal.absent, pshbExpires := none, lastFlush := none }
    (by decide) (by decide)

/-- C8 counterexample: when the expiry is unknown (no `x-pshb-expires`
header), the scheduled handler issues NO subscription request — the
renewal condition is `if (expires && expires - now < renewWindow)`, and a
null `expires` is falsy — whereas the claim requires a renewal request to
be issued in exactly that situation. -/
theorem c8_counterexample :
    scheduledRenew
      { PSHB_LEASE_SECONDS := none, VERIFY_TOKEN := "vt", WEBHOOK_SECRET := "w" }
      "https://swarm-fm-uptime-worker.ktrain5169.workers.dev/webhook"
      none 1700000000000 = none := by
  unfold scheduledRenew
  rw [if_neg (by simp [parseExpiry, expiresTruthy])]

/-- C8 (amended): a subscription request is issued to the hub exactly when
the expiry is KNOWN (header present, parses to a non-NaN, truthy value
`e`) and `e - now` is below 10% of the configured lease window; when the
expiry is unknown, no renewal is attempted; every issued request carries
mode=subscribe, the expected topic, the callback URL, async verify, the
verification secret, the shared secret and the configured lease
duration. -/
theorem c8_renewal_iff (env : SchedEnv) (cb : String) (h : Option String) (now : Nat) :
    ((scheduledRenew env cb h now).isSome = true ↔
      ∃ e : ℚ, parseExpiry h = some e ∧ e ≠ 0 ∧
        jsLt (jsSub (JsNum.num e) (JsNum.num now)) (renewWindow env) = true) ∧
    (∀ f : SubscribeForm, scheduledRenew env cb h now = some f →
      f = subscribeForm env cb) := by
  constructor
  · unfold scheduledRenew
    by_cases hc : (expiresTruthy (parseExpiry h) &&
        jsLt (jsSub (JsNum.num ((parseExpiry h).getD 0)) (JsNum.num now))
          (renewWindow env)) = true
    · rw [if_pos hc]
      simp only [Option.isSome_some, true_iff]
      rw [Bool.and_eq_true] at hc
      cases hp : parseExpiry h with
      | none =>
        rw [hp] at hc
        exact absurd hc.1 (by simp [expiresTruthy])
      | some e =>
        rw [hp] at hc
        refine ⟨e, rfl, ?_, ?_⟩
        · intro he0
          rw [he0] at hc
          exact absurd hc.1 (by simp [expiresTruthy])
        · simpa using hc.2
    · rw [if_neg hc]
      simp only [Option.isSome_none, Bool.false_eq_true, false_iff]
      rintro ⟨e, hp, he0, hlt⟩
      apply hc
      rw [Bool.and_eq_true, hp]
      constructor
      · simp [expiresTruthy, he0]
      · simpa using hlt
  · intro f hf
    unfold scheduledRenew at hf
    by_cases hc : (expiresTruthy (parseExpiry h) &&
        jsLt (jsSub (JsNum.num ((parseExpiry h).getD 0)) (JsNum.num now))
          (renewWindow env)) = true
    · rw [if_pos hc] at hf
      exact (Option.some_inj.mp hf).symm
    · rw [if_neg hc] at hf
      exact absurd hf (by simp)

/-- C9 counterexample: a listener connecting while no video id is stored
is sent `JSON.stringify({live: false, videoId: undefined})`, which is the
string `{"live":false}` — the `videoId` key is dropped — and not the
claimed exact message `{"live":false,"videoId":null}`. -/
theorem c9_counterexample :
    wsConnectMsg { videoId := StoredVal.absent, pshbExpires := none, lastFlush := none } =
      "\x7b\"live\":false\x7d" ∧
    wsConnectMsg { videoId := StoredVal.absent, pshbExpires := none, lastFlush := none } ≠
      "\x7b\"live\":false,\"videoId\":null\x7d" := by
  constructor
  · rfl
  · decide

/-- C9 (amended): a real-time listener that connects while the stored
`videoId` KEY IS ABSENT (never set, or cleared by /update or
reconciliation) is immediately sent the exact message `{"live":false}` —
`storage.get` yields `undefined`, which `JSON.stringify` omits — while a
listener that connects after a nothing-live /flush stored an EXPLICIT
null is immediately sent exactly `{"live":false,"videoId":null}`; in
both cases before any broadcast is required to have occurred. -/
theorem c9_connect_snapshot (st : DOState) :
    (st.videoId = StoredVal.absent →
      wsConnectMsg st = "\x7b\"live\":false\x7d") ∧
    (st.videoId = StoredVal.nullVal →
      wsConnectMsg st = "\x7b\"live\":false,\"videoId\":null\x7d") := by
  constructor
  · intro h
    unfold wsConnectMsg
    rw [h]
    rfl
  · intro h
    unfold wsConnectMsg
    rw [h]
    rfl

/-- C9 witness: the key-absent case at the empty state, and the
explicit-null case at the state an accepted nothing-live /flush actually
produces. -/
theorem c9_connect_snapshot_witness :
    wsConnectMsg { videoId := StoredVal.absent, pshbExpires := none, lastFlush := none } =
      "\x7b\"live\":false\x7d" ∧
    wsConnectMsg (postFlush 1800000 (SearchResult.ok none)
        { videoId := StoredVal.absent, pshbExpires := none, lastFlush := none }).1 =
      "\x7b\"live\":false,\"videoId\":null\x7d" := by
  constructor
  · exact (c9_connect_snapshot
      { videoId := StoredVal.absent, pshbExpires := none, lastFlush := none }).1 rfl
  · exact (c9_connect_snapshot (postFlush 1800000 (SearchResult.ok none)
      { videoId := StoredVal.absent, pshbExpires := none, lastFlush := none }).1).2 (by decide)

/-- C1 witness: a well-formed handshake is accepted with the challenge
echoed; the same handshake with an altered mode gets the 400 response and
an unchanged state. -/
theorem c1_handshake_accept_iff_witness :
    ((handshakeGet { UPDATE_SECRET := "u", WEBHOOK_SECRET := "w", VERIFY_TOKEN := "vt" }
        { mode := some "subscribe", topic := some expectedTopic,
          challenge := some "XYZ123", verifyToken := some "vt", leaseSeconds := none }
        1000 { videoId := StoredVal.absent, pshbExpires := none, lastFlush := none }).2.status = 200 ∧
      (handshakeGet { UPDATE_SECRET := "u", WEBHOOK_SECRET := "w", VERIFY_TOKEN := "vt" }
        { mode := some "subscribe", topic := some expectedTopic,
          challenge := some "XYZ123", verifyToken := some "vt", leaseSeconds := none }
        1000 { videoId := StoredVal.absent, pshbExpires := none, lastFlush := none }).2.body =
        some "XYZ123") ∧
    handshakeGet { UPDATE_SECRET := "u", WEBHOOK_SECRET := "w", VERIFY_TOKEN := "vt" }
        { mode := some "unsubscribe", topic := some expectedTopic,
          challenge := some "XYZ123", verifyToken := some "vt", leaseSeconds := none }
        1000 { videoId := StoredVal.absent, pshbExpires := none, lastFlush := none } =
      ({ videoId := StoredVal.absent, pshbExpires := none, lastFlush := none },
        { status := 400, body := some "Invalid subscription request" }) := by
  constructor
  · exact (c1_handshake_accept_iff
      { UPDATE_SECRET := "u", WEBHOOK_SECRET := "w", VERIFY_TOKEN := "vt" }
      { mode := some "subscribe", topic := some expectedTopic,
        challenge := some "XYZ123", verifyToken := some "vt", leaseSeconds := none }
      1000 { videoId := StoredVal.absent, pshbExpires := none, lastFlush := none }).1.mpr
      ⟨rfl, rfl, rfl, "XYZ123", rfl, by decide⟩
  · exact (c1_handshake_accept_iff
      { UPDATE_SECRET := "u", WEBHOOK_SECRET := "w", VERIFY_TOKEN := "vt" }
      { mode := some "unsubscribe", topic := some expectedTopic,
        challenge := some "XYZ123", verifyToken := some "vt", leaseSeconds := none }
      1000 { videoId := StoredVal.absent, pshbExpires := none, lastFlush := none }).2
      (fun hc => absurd hc.1 (by decide))

/-- C3 witness: a wrong token is rejected with 401 `Unauthorized`, no
state change and no broadcast; a matching token is not rejected by the
shared-secret stage. -/
theorem c3_token_check_iff_witness :
    (postWebhook (fun _ _ => []) { UPDATE_SECRET := "u", WEBHOOK_SECRET := "w", VERIFY_TOKEN := "vt" }
      { token := some "wrong", signatureHeader := none, body := [], parsedVideoId := none }
      (YtLookup.ok []) { videoId := StoredVal.absent, pshbExpires := none, lastFlush := none } =
      { state := { videoId := StoredVal.absent, pshbExpires := none, lastFlush := none },
        resp := { status := 401, body := some "Unauthorized" }, broadcasts := [] }) ∧
    ¬ ((postWebhook (fun _ _ => []) { UPDATE_SECRET := "u", WEBHOOK_SECRET := "w", VERIFY_TOKEN := "vt" }
      { token := some "w", signatureHeader := none, body := [], parsedVideoId := none }
      (YtLookup.ok []) { videoId := StoredVal.absent, pshbExpires := none, lastFlush := none }).resp =
      { status := 401, body := some "Unauthorized" }) := by
  constructor
  · exact (c3_token_check_iff (fun _ _ => [])
      { UPDATE_SECRET := "u", WEBHOOK_SECRET := "w", VERIFY_TOKEN := "vt" }
      { token := some "wrong", signatureHeader := none, body := [], parsedVideoId := none }
      (YtLookup.ok []) { videoId := StoredVal.absent, pshbExpires := none, lastFlush := none }).2
      (by decide)
  · intro hc
    exact absurd ((c3_token_check_iff (fun _ _ => [])
      { UPDATE_SECRET := "u", WEBHOOK_SECRET := "w", VERIFY_TOKEN := "vt" }
      { token := some "w", signatureHeader := none, body := [], parsedVideoId := none }
      (YtLookup.ok []) { videoId := StoredVal.absent, pshbExpires := none, lastFlush := none }).1.mp hc)
      (by simp)

/-- C8 witness: the amended renewal condition at concrete inputs — a known
truthy expiry inside the window triggers a request with exactly the
subscribe form, and the request issued is that form. -/
theorem c8_renewal_iff_witness :
    (scheduledRenew { PSHB_LEASE_SECONDS := none, VERIFY_TOKEN := "vt", WEBHOOK_SECRET := "w" }
      "https://sw.arm.fm/api/uptime/webhook" (some "5") 4).isSome = true := by
  apply (c8_renewal_iff { PSHB_LEASE_SECONDS := none, VERIFY_TOKEN := "vt", WEBHOOK_SECRET := "w" }
    "https://sw.arm.fm/api/uptime/webhook" (some "5") 4).1.mpr
  refine ⟨5, by decide, by norm_num, ?_⟩
  have hl : jsToNumber (some "432000") = JsNum.num 432000 := by decide
  show jsLt (jsSub (JsNum.num 5) (JsNum.num 4))
    (renewWindow { PSHB_LEASE_SECONDS := none, VERIFY_TOKEN := "vt", WEBHOOK_SECRET := "w" }) = true
  unfold renewWindow schedLeaseSec jsOrStr
  rw [hl]
  show jsLt (JsNum.num (5 - 4)) (JsNum.num (432000 * 1000 * (1 / 10))) = true
  show decide (((5 : ℚ) - 4) < 432000 * 1000 * (1 / 10)) = true
  norm_num
